import Mathlib

/-!
Verification development for the face-detection repository
(`src/application`, `src/domain`, `src/infrastructure`).

Python floats are modelled as exact rationals (`ℚ`); all comparisons in the
modelled code (`0.0 <= t <= 1.0`, `age < 18`, slice arithmetic) are exact, so
nothing that the claims depend on is lost by this choice.  Python `int(x)`
(truncation toward zero) is modelled by `pyInt`.  Raised exceptions are
modelled by `Except PyErr`; for methods that mutate their receiver the model
returns the post-state alongside the `Except` outcome, the post-state being
the receiver itself when the method raised before assigning.
-/

namespace FaceDet

/-- Python `int(q)` for a float `q`: truncation toward zero. -/
def pyInt (q : ℚ) : ℤ := if 0 ≤ q then ⌊q⌋ else ⌈q⌉

/-- `src/src/domain/entities.py`: `EmotionResult`. -/
structure EmotionResult where
  emotion : String
  confidence : ℚ
  emotions : List (String × ℚ)
deriving DecidableEq, Repr

/-- `src/src/domain/entities.py`: `AgeResult`. -/
structure AgeResult where
  age : ℚ
  age_range : ℤ × ℤ
deriving DecidableEq, Repr

/-- `src/src/domain/entities.py`: `FaceDetection`. -/
structure FaceDetection where
  bbox : ℚ × ℚ × ℚ × ℚ
  confidence : ℚ
  landmarks : Option (List (ℚ × ℚ)) := none
  emotion : Option EmotionResult := none
  age : Option AgeResult := none
deriving DecidableEq, Repr

def FaceDetection.get_width (f : FaceDetection) : ℚ := f.bbox.2.2.1 - f.bbox.1

def FaceDetection.get_height (f : FaceDetection) : ℚ := f.bbox.2.2.2 - f.bbox.2.1

def FaceDetection.get_area (f : FaceDetection) : ℚ := f.get_width * f.get_height

/-- `src/src/domain/entities.py`: `DetectionResult`. -/
structure DetectionResult where
  image_path : String
  faces : List FaceDetection
  processing_time : ℚ
  original_image_size : ℕ × ℕ
deriving DecidableEq, Repr

def DetectionResult.get_face_count (r : DetectionResult) : ℕ := r.faces.length

def DetectionResult.has_faces (r : DetectionResult) : Bool := r.faces.length > 0

/-- `src/src/domain/exceptions.py` plus Python's builtin `ValueError`
(raised by `set_confidence_threshold`).  Each carries its message. -/
inductive PyErr where
  | modelNotLoaded (msg : String)
  | invalidImage (msg : String)
  | processing (msg : String)
  | fileError (msg : String)
  | valueError (msg : String)
deriving DecidableEq, Repr

/-- `str(e)` for a modelled exception. -/
def PyErr.message : PyErr → String
  | .modelNotLoaded m => m
  | .invalidImage m => m
  | .processing m => m
  | .fileError m => m
  | .valueError m => m

/-- `isinstance(e, (InvalidImageError, FileError))` in
`detect_faces_in_image`'s `except` clause. -/
def PyErr.isInvalidImageOrFileError : PyErr → Bool
  | .invalidImage _ => true
  | .fileError _ => true
  | _ => false

/-! ## Serialization (`src/src/application/services.py`) -/

/-- JSON-like values produced by `DetectionResultSerializer`. -/
inductive JValue where
  | num (q : ℚ)
  | nat (n : ℕ)
  | str (s : String)
  | bool (b : Bool)
  | arr (xs : List JValue)
  | obj (fields : List (String × JValue))

/-- Python truthiness of an optional list (`if face.landmarks:`):
`None` and the empty list are falsy. -/
def pyTruthyOptList {α : Type} : Option (List α) → Bool
  | none => false
  | some l => !l.isEmpty

namespace DetectionResultSerializer

/-- `DetectionResultSerializer._face_to_dict` (`services.py` lines 26-48),
as the ordered key/value association it builds.  No key beyond
`bbox, confidence, width, height, area` and (conditionally) `landmarks`
is ever inserted. -/
def face_to_dict (face : FaceDetection) : List (String × JValue) :=
  [("bbox", .obj [("x1", .num face.bbox.1), ("y1", .num face.bbox.2.1),
                  ("x2", .num face.bbox.2.2.1), ("y2", .num face.bbox.2.2.2)]),
   ("confidence", .num face.confidence),
   ("width", .num face.get_width),
   ("height", .num face.get_height),
   ("area", .num face.get_area)] ++
  (if pyTruthyOptList face.landmarks then
     [("landmarks", .arr ((face.landmarks.getD []).map
        (fun p => .obj [("x", .num p.1), ("y", .num p.2)])))]
   else [])

/-- `DetectionResultSerializer.to_dict` (`services.py` lines 8-24). -/
def to_dict (result : DetectionResult) : List (String × JValue) :=
  [("image_path", .str result.image_path),
   ("face_count", .nat result.get_face_count),
   ("has_faces", .bool result.has_faces),
   ("processing_time", .num result.processing_time),
   ("original_image_size",
      .obj [("width", .nat result.original_image_size.1),
            ("height", .nat result.original_image_size.2)]),
   ("faces", .arr (result.faces.map (fun f => .obj (face_to_dict f))))]

end DetectionResultSerializer

/-! ## Age-range policy (`deepface_age_detector.py`, `deepface_combined_detector.py`) -/

namespace DeepFaceAgeDetector

/-- `DeepFaceAgeDetector._calculate_age_range` (lines 124-152).  The initial
`uncertainty = 6` computation in the source is dead: the following
`if/elif/elif/else` chain is total and overwrites `min_age`/`max_age` in
every branch, so only the branch values are modelled. -/
def _calculate_age_range (estimated_age : ℚ) : ℤ × ℤ :=
  if estimated_age < 18 then
    (max 0 (pyInt (estimated_age - 3)), min 25 (pyInt (estimated_age + 3)))
  else if estimated_age < 30 then
    (max 18 (pyInt (estimated_age - 4)), min 35 (pyInt (estimated_age + 4)))
  else if estimated_age < 50 then
    (max 25 (pyInt (estimated_age - 5)), min 60 (pyInt (estimated_age + 5)))
  else
    (max 40 (pyInt (estimated_age - 8)), min 120 (pyInt (estimated_age + 8)))

end DeepFaceAgeDetector

namespace DeepFaceCombinedDetector

/-- `DeepFaceCombinedDetector._calculate_age_range` (lines 156-184);
textually identical to the copy in `deepface_age_detector.py`. -/
def _calculate_age_range (estimated_age : ℚ) : ℤ × ℤ :=
  if estimated_age < 18 then
    (max 0 (pyInt (estimated_age - 3)), min 25 (pyInt (estimated_age + 3)))
  else if estimated_age < 30 then
    (max 18 (pyInt (estimated_age - 4)), min 35 (pyInt (estimated_age + 4)))
  else if estimated_age < 50 then
    (max 25 (pyInt (estimated_age - 5)), min 60 (pyInt (estimated_age + 5)))
  else
    (max 40 (pyInt (estimated_age - 8)), min 120 (pyInt (estimated_age + 8)))

end DeepFaceCombinedDetector

/-- The age-bracket table exactly as the claim and the specification state
it, for comparison with the two source functions: for age < 18 the range is
`(max(0, age−3), min(25, age+3))`, for 18 ≤ age < 30 it is
`(max(18, age−4), min(35, age+4))`, for 30 ≤ age < 50 it is
`(max(25, age−5), min(60, age+5))`, for age ≥ 50 it is
`(max(40, age−8), min(120, age+8))`, offsets truncated to integers. -/
def specAgeBracket (age : ℚ) : ℤ × ℤ :=
  if age < 18 then (max 0 (pyInt (age - 3)), min 25 (pyInt (age + 3)))
  else if age < 30 then (max 18 (pyInt (age - 4)), min 35 (pyInt (age + 4)))
  else if age < 50 then (max 25 (pyInt (age - 5)), min 60 (pyInt (age + 5)))
  else (max 40 (pyInt (age - 8)), min 120 (pyInt (age + 8)))

/-! ## Images and numpy slicing -/

/-- A numpy image: shape `(height, width)` plus abstract pixel contents
(`data row col`; the channel dimension never matters to the modelled code). -/
structure Image where
  height : ℕ
  width : ℕ
  data : ℕ → ℕ → ℕ

/-- `image.size == 0` for a 3-channel numpy array holds exactly when some
spatial dimension is zero. -/
def Image.size (img : Image) : ℕ := img.height * img.width

/-- Normalisation of one Python slice bound against a dimension of length
`n`: negative indices count from the end, then the bound is clamped to
`[0, n]` (numpy / CPython slice semantics, step 1). -/
def normIdx (n : ℕ) (i : ℤ) : ℕ :=
  if i < 0 then (max 0 ((n : ℤ) + i)).toNat else min n i.toNat

/-- `image[y1:y2, x1:x2]` for integer bounds. -/
def Image.sliceCrop (img : Image) (y1 y2 x1 x2 : ℤ) : Image :=
  let ys := normIdx img.height y1
  let ye := normIdx img.height y2
  let xs := normIdx img.width x1
  let xe := normIdx img.width x2
  { height := ye - ys, width := xe - xs,
    data := fun r c => img.data (ys + r) (xs + c) }

/-- The crop taken in `_add_facial_analysis`:
`x1, y1, x2, y2 = map(int, face.bbox)` then `image[y1:y2, x1:x2]`. -/
def faceCrop (img : Image) (face : FaceDetection) : Image :=
  img.sliceCrop (pyInt face.bbox.2.1) (pyInt face.bbox.2.2.2)
    (pyInt face.bbox.1) (pyInt face.bbox.2.2.1)

/-! ## The use case (`src/src/application/use_cases.py`) -/

/-- The collaborators a `FaceDetectionUseCase` is constructed with, plus the
ambient filesystem.  Each fallible call is an oracle returning
`Except PyErr`; the three analyzer slots are `none` when the corresponding
constructor argument was `None`. -/
structure Collaborators where
  pathExists : String → Bool
  set_confidence_threshold : ℚ → Except PyErr Unit
  load_image : String → Except PyErr (Option Image)
  detect_faces : Image → Except PyErr DetectionResult
  combined_detector : Option (Image → Except PyErr (Option EmotionResult × Option AgeResult))
  emotion_detector : Option (Image → Except PyErr EmotionResult)
  age_detector : Option (Image → Except PyErr AgeResult)

/-- Calls made while analysing one face. -/
inductive Call where
  | combinedCall
  | emotionCall
  | ageCall
deriving DecidableEq, Repr

namespace FaceDetectionUseCase

/-- The combined-detector stage for one face
(`use_cases.py` lines 94-103): attempted only when a combined detector is
configured and both analyses are requested; its failure is caught, leaving
both intermediate results `None`. -/
def combinedStage (C : Collaborators) (detect_emotions detect_age : Bool)
    (face_image : Image) :
    (Option EmotionResult × Option AgeResult) × List Call :=
  match C.combined_detector, detect_emotions && detect_age with
  | some comb, true =>
    match comb face_image with
    | .ok (er, ar) => ((er, ar), [.combinedCall])
    | .error _ => ((none, none), [.combinedCall])
  | _, _ => ((none, none), [])

/-- The individual emotion fallback (`use_cases.py` lines 106-110):
`if detect_emotions and emotion_result is None and self._emotion_detector`.
A raised error is caught and leaves the result `None`. -/
def emotionStage (C : Collaborators) (detect_emotions : Bool)
    (emotion_result : Option EmotionResult) (face_image : Image) :
    Option EmotionResult × List Call :=
  match detect_emotions, emotion_result, C.emotion_detector with
  | true, none, some det =>
    (match det face_image with
     | .ok r => some r
     | .error _ => none, [.emotionCall])
  | _, er, _ => (er, [])

/-- The individual age fallback (`use_cases.py` lines 112-116). -/
def ageStage (C : Collaborators) (detect_age : Bool)
    (age_result : Option AgeResult) (face_image : Image) :
    Option AgeResult × List Call :=
  match detect_age, age_result, C.age_detector with
  | true, none, some det =>
    (match det face_image with
     | .ok r => some r
     | .error _ => none, [.ageCall])
  | _, ar, _ => (ar, [])

/-- The body of the per-face loop of `_add_facial_analysis`
(`use_cases.py` lines 83-131), returning the updated face together with the
list of analyzer calls made, in call order.  The outer per-face
`try/except` of the source cannot fire in the model: every analyzer call
already catches its own exceptions, and the remaining statements of the
loop body (crop, shape test, dataclass construction) are pure. -/
def analyzeFace (C : Collaborators) (img : Image)
    (detect_emotions detect_age : Bool) (face : FaceDetection) :
    FaceDetection × List Call :=
  let face_image := faceCrop img face
  if face_image.height < 10 ∨ face_image.width < 10 then (face, [])
  else
    let c0 := combinedStage C detect_emotions detect_age face_image
    let c1 := emotionStage C detect_emotions c0.1.1 face_image
    let c2 := ageStage C detect_age c0.1.2 face_image
    ({ bbox := face.bbox, confidence := face.confidence,
       landmarks := face.landmarks, emotion := c1.1, age := c2.1 },
     c0.2 ++ c1.2 ++ c2.2)

/-- `FaceDetectionUseCase._add_facial_analysis` (`use_cases.py` lines
73-139): per-face analysis over `result.faces`, then a new
`DetectionResult` carrying the updated face list and the untouched
`image_path`, `processing_time` and `original_image_size`. -/
def _add_facial_analysis (C : Collaborators) (result : DetectionResult)
    (img : Image) (detect_emotions detect_age : Bool) : DetectionResult :=
  { image_path := result.image_path,
    faces := result.faces.map (fun f => (analyzeFace C img detect_emotions detect_age f).1),
    processing_time := result.processing_time,
    original_image_size := result.original_image_size }

/-- Steps recorded by the orchestrator model, in execution order. -/
inductive Step where
  | setThresholdStep
  | loadImageStep
  | detectStep
  | analysisStep
deriving DecidableEq, Repr

/-- The `try` block of `detect_faces_in_image` (`use_cases.py` lines
53-66): load and validate the image, run the detector, optionally enrich. -/
def tryBody (C : Collaborators) (image_path : String)
    (detect_emotions detect_age : Bool) :
    Except PyErr DetectionResult × List Step :=
  match C.load_image image_path with
  | .error e => (.error e, [.loadImageStep])
  | .ok none =>
    (.error (.invalidImage ("Unable to load image: " ++ image_path)), [.loadImageStep])
  | .ok (some img) =>
    if img.size = 0 then
      (.error (.invalidImage ("Unable to load image: " ++ image_path)), [.loadImageStep])
    else
      match C.detect_faces img with
      | .error e => (.error e, [.loadImageStep, .detectStep])
      | .ok result =>
        if (detect_emotions || detect_age) && !result.faces.isEmpty then
          (.ok (_add_facial_analysis C result img detect_emotions detect_age),
           [.loadImageStep, .detectStep, .analysisStep])
        else
          (.ok result, [.loadImageStep, .detectStep])

/-- The `except` clause of `detect_faces_in_image` (lines 68-71):
`InvalidImageError` and `FileError` are re-raised as they are, anything
else becomes `InvalidImageError("Error processing image: " + str(e))`. -/
def wrapTryError : Except PyErr DetectionResult → Except PyErr DetectionResult
  | .ok r => .ok r
  | .error e =>
    if e.isInvalidImageOrFileError then .error e
    else .error (.invalidImage ("Error processing image: " ++ e.message))

/-- `FaceDetectionUseCase.detect_faces_in_image` (`use_cases.py` lines
28-71), returning the outcome together with the steps executed.  The
missing-path check and the threshold update run before the `try` block, so
their exceptions propagate unwrapped; exceptions from the `try` block go
through `wrapTryError`. -/
def detect_faces_in_image (C : Collaborators) (image_path : String)
    (confidence_threshold : Option ℚ)
    (detect_emotions detect_age : Bool) :
    Except PyErr DetectionResult × List Step :=
  if C.pathExists image_path = false then
    (.error (.fileError ("Image file not found: " ++ image_path)), [])
  else
    match confidence_threshold with
    | some t =>
      match C.set_confidence_threshold t with
      | .error e => (.error e, [.setThresholdStep])
      | .ok _ =>
        let r := tryBody C image_path detect_emotions detect_age
        (wrapTryError r.1, .setThresholdStep :: r.2)
    | none =>
      let r := tryBody C image_path detect_emotions detect_age
      (wrapTryError r.1, r.2)

end FaceDetectionUseCase

/-! ## Detector threshold setters (`mtcnn_detector.py`, `retinaface_detector.py`) -/

/-- The threshold-relevant state of `MTCNNFaceDetector`. -/
structure MTCNNFaceDetector where
  confidence_threshold : ℚ
deriving DecidableEq, Repr

/-- `MTCNNFaceDetector.set_confidence_threshold` (lines 111-115): the raise
happens before the assignment, so on failure the returned post-state is the
unchanged receiver. -/
def MTCNNFaceDetector.set_confidence_threshold (d : MTCNNFaceDetector) (threshold : ℚ) :
    Except PyErr Unit × MTCNNFaceDetector :=
  if ¬(0 ≤ threshold ∧ threshold ≤ 1) then
    (.error (.valueError "Confidence threshold must be between 0.0 and 1.0"), d)
  else
    (.ok (), { d with confidence_threshold := threshold })

/-- The threshold-relevant state of `RetinaFaceDetector`. -/
structure RetinaFaceDetector where
  confidence_threshold : ℚ
deriving DecidableEq, Repr

/-- `RetinaFaceDetector.set_confidence_threshold` (lines 110-114);
textually identical to the MTCNN copy. -/
def RetinaFaceDetector.set_confidence_threshold (d : RetinaFaceDetector) (threshold : ℚ) :
    Except PyErr Unit × RetinaFaceDetector :=
  if ¬(0 ≤ threshold ∧ threshold ≤ 1) then
    (.error (.valueError "Confidence threshold must be between 0.0 and 1.0"), d)
  else
    (.ok (), { d with confidence_threshold := threshold })

/-- The crop shape the specification describes for step 6a: the bounding
box clipped (clamped) to the image bounds, coordinate by coordinate.
Stated from the spec's words for comparison with the slice the code takes. -/
def clippedCropShape (img : Image) (y1 y2 x1 x2 : ℤ) : ℕ × ℕ :=
  let cy1 := (min (img.height : ℤ) (max 0 y1)).toNat
  let cy2 := (min (img.height : ℤ) (max 0 y2)).toNat
  let cx1 := (min (img.width : ℤ) (max 0 x1)).toNat
  let cx2 := (min (img.width : ℤ) (max 0 x2)).toNat
  (cy2 - cy1, cx2 - cx1)

/-! ## Concrete instances used by the witness theorems -/

/-- A 100×100 test image with constant pixels. -/
def img100 : Image := ⟨100, 100, fun _ _ => 0⟩

/-- A concrete emotion analysis result. -/
def erw : EmotionResult := ⟨"happy", 1, [("happy", 1)]⟩

/-- A concrete age analysis result. -/
def arw : AgeResult := ⟨30, (25, 35)⟩

/-- An emotion analyzer that fails exactly on crops of width 10. -/
def Ew : Image → Except PyErr EmotionResult := fun im =>
  if im.width = 10 then .error (.processing "emotion backend failed") else .ok erw

/-- An age analyzer that fails exactly on crops of width 10. -/
def Aw : Image → Except PyErr AgeResult := fun im =>
  if im.width = 10 then .error (.processing "age backend failed") else .ok arw

/-- A face whose crop in `img100` is 50 rows by 10 columns. -/
def f0w : FaceDetection := ⟨(0, 0, 10, 50), 1, none, none, none⟩

/-- A face whose crop in `img100` is 60 rows by 50 columns. -/
def f1w : FaceDetection := ⟨(0, 0, 50, 60), 1, none, none, none⟩

/-- A face whose crop in `img100` is 5 rows by 5 columns. -/
def fsmall : FaceDetection := ⟨(0, 0, 5, 5), 1, none, none, none⟩

/-- A face whose bounding box starts left of the image (`x1 = -5`). -/
def fneg : FaceDetection := ⟨(-5, 0, 20, 50), 1, none, none, none⟩

/-- A face carrying both enrichments, for the serialization claim. -/
def faceEnriched : FaceDetection := ⟨(0, 0, 50, 60), 1, none, some erw, some arw⟩

/-- Collaborators whose filesystem has no files. -/
def Cmiss : Collaborators :=
  ⟨fun _ => false, fun _ => .ok (), fun _ => .ok none,
   fun _ => .error (.processing "unused"), none, none, none⟩

/-- Collaborators whose face detector raises `ProcessingError`. -/
def Cfail : Collaborators :=
  ⟨fun _ => true, fun _ => .ok (), fun _ => .ok (some img100),
   fun _ => .error (.processing "inference failed"), none, none, none⟩

/-- Collaborators with no combined detector and the `Ew`/`Aw` analyzers. -/
def Cw4 : Collaborators :=
  ⟨fun _ => true, fun _ => .ok (), fun _ => .ok (some img100),
   fun _ => .error (.processing "unused"), none, some Ew, some Aw⟩

/-- Collaborators with a combined detector and both individual analyzers. -/
def Cw7 : Collaborators :=
  ⟨fun _ => true, fun _ => .ok (), fun _ => .ok (some img100),
   fun _ => .error (.processing "unused"),
   some (fun _ => .ok (some erw, some arw)), some Ew, some Aw⟩

/-!
# Theorems

Helper lemmas first, then for each claim its theorem (and witness or
counterexample where applicable).
-/

theorem pyInt_intCast (n : ℤ) : pyInt (n : ℚ) = n := by
  unfold pyInt
  split <;> simp

theorem pyInt_cast_lt_add_one (q : ℚ) : (pyInt q : ℚ) < q + 1 := by
  unfold pyInt
  split
  · exact lt_of_le_of_lt (Int.floor_le q) (by linarith)
  · exact Int.ceil_lt_add_one q

theorem sub_one_lt_pyInt_cast (q : ℚ) : q - 1 < (pyInt q : ℚ) := by
  unfold pyInt
  split
  · exact Int.sub_one_lt_floor q
  · exact lt_of_lt_of_le (by linarith) (Int.le_ceil q)

/-- Bounds of one bracket row `(max c₁ (pyInt (a − k₁)), min c₂ (pyInt (a + k₂)))`. -/
theorem bracket_bounds {a k₁ k₂ : ℚ} {c₁ c₂ : ℤ} (hk₁ : 1 ≤ k₁) (hk₂ : 1 ≤ k₂)
    (h₁ : 0 ≤ c₁) (hc₁ : (c₁ : ℚ) ≤ a) (hc₂ : a ≤ (c₂ : ℚ)) (h120 : c₂ ≤ 120) :
    0 ≤ max c₁ (pyInt (a - k₁)) ∧ ((max c₁ (pyInt (a - k₁)) : ℤ) : ℚ) ≤ a ∧
    a ≤ ((min c₂ (pyInt (a + k₂)) : ℤ) : ℚ) ∧ min c₂ (pyInt (a + k₂)) ≤ 120 := by
  refine ⟨le_trans h₁ (le_max_left _ _), ?_, ?_, le_trans (min_le_left _ _) h120⟩
  · push_cast
    exact max_le hc₁ (by linarith [pyInt_cast_lt_add_one (a - k₁)])
  · push_cast
    exact le_min hc₂ (by linarith [sub_one_lt_pyInt_cast (a + k₂)])

/-- Containment and clamping bounds of the bucketed age bracket for
estimates inside `[0, 120]`. -/
theorem calculate_age_range_bounds (a : ℚ) (h0 : 0 ≤ a) (h120 : a ≤ 120) :
    0 ≤ (DeepFaceAgeDetector._calculate_age_range a).1 ∧
    ((DeepFaceAgeDetector._calculate_age_range a).1 : ℚ) ≤ a ∧
    a ≤ ((DeepFaceAgeDetector._calculate_age_range a).2 : ℚ) ∧
    (DeepFaceAgeDetector._calculate_age_range a).2 ≤ 120 := by
  unfold DeepFaceAgeDetector._calculate_age_range
  split_ifs with h18 h30 h50
  · exact bracket_bounds (by norm_num) (by norm_num) (by norm_num)
      (by push_cast; linarith) (by push_cast; linarith) (by norm_num)
  · exact bracket_bounds (by norm_num) (by norm_num) (by norm_num)
      (by push_cast; linarith) (by push_cast; linarith) (by norm_num)
  · exact bracket_bounds (by norm_num) (by norm_num) (by norm_num)
      (by push_cast; linarith) (by push_cast; linarith) (by norm_num)
  · exact bracket_bounds (by norm_num) (by norm_num) (by norm_num)
      (by push_cast; linarith) (by push_cast; linarith) (by norm_num)

/-- C5: enrichment builds a new `DetectionResult` (the model's
`_add_facial_analysis` is a pure function, so the pre-enrichment value is
untouched by construction) whose `image_path`, `processing_time` and
`original_image_size` are equal to those of its input; only the face list
is recomputed. -/
theorem add_facial_analysis_preserves_frame (C : Collaborators)
    (result : DetectionResult) (img : Image) (de da : Bool) :
    (FaceDetectionUseCase._add_facial_analysis C result img de da).image_path
        = result.image_path ∧
    (FaceDetectionUseCase._add_facial_analysis C result img de da).processing_time
        = result.processing_time ∧
    (FaceDetectionUseCase._add_facial_analysis C result img de da).original_image_size
        = result.original_image_size ∧
    (FaceDetectionUseCase._add_facial_analysis C result img de da).faces
        = result.faces.map (fun f => (FaceDetectionUseCase.analyzeFace C img de da f).1) :=
  ⟨rfl, rfl, rfl, rfl⟩

/-- C3: for thresholds `t` with `0 ≤ t ≤ 1`, `set_confidence_threshold`
succeeds and the stored threshold becomes `t`; for `t` outside `[0, 1]` it
raises `ValueError` (the spec's `InvalidArgument`) and the stored
threshold is unchanged — for both the MTCNN and the RetinaFace detector. -/
theorem set_confidence_threshold_spec (t : ℚ)
    (dm : MTCNNFaceDetector) (dr : RetinaFaceDetector) :
    (0 ≤ t ∧ t ≤ 1 →
      dm.set_confidence_threshold t = (.ok (), ⟨t⟩) ∧
      dr.set_confidence_threshold t = (.ok (), ⟨t⟩)) ∧
    (¬(0 ≤ t ∧ t ≤ 1) →
      dm.set_confidence_threshold t
          = (.error (.valueError "Confidence threshold must be between 0.0 and 1.0"), dm) ∧
      dr.set_confidence_threshold t
          = (.error (.valueError "Confidence threshold must be between 0.0 and 1.0"), dr)) := by
  unfold MTCNNFaceDetector.set_confidence_threshold RetinaFaceDetector.set_confidence_threshold
  constructor
  · intro h
    rw [if_neg (not_not_intro h), if_neg (not_not_intro h)]
    exact ⟨rfl, rfl⟩
  · intro h
    rw [if_pos h, if_pos h]
    exact ⟨rfl, rfl⟩

/-- Witness for C3 at the valid threshold 1 and the invalid threshold 2. -/
theorem set_confidence_threshold_spec_witness :
    ((0 ≤ (1 : ℚ) ∧ (1 : ℚ) ≤ 1) ∧
      (MTCNNFaceDetector.set_confidence_threshold ⟨0⟩ 1 = (.ok (), ⟨1⟩) ∧
       RetinaFaceDetector.set_confidence_threshold ⟨0⟩ 1 = (.ok (), ⟨1⟩))) ∧
    (¬(0 ≤ (2 : ℚ) ∧ (2 : ℚ) ≤ 1) ∧
      (MTCNNFaceDetector.set_confidence_threshold ⟨0⟩ 2
          = (.error (.valueError "Confidence threshold must be between 0.0 and 1.0"), ⟨0⟩) ∧
       RetinaFaceDetector.set_confidence_threshold ⟨0⟩ 2
          = (.error (.valueError "Confidence threshold must be between 0.0 and 1.0"), ⟨0⟩))) :=
  ⟨⟨by norm_num, (set_confidence_threshold_spec 1 ⟨0⟩ ⟨0⟩).1 (by norm_num)⟩,
   ⟨by norm_num, (set_confidence_threshold_spec 2 ⟨0⟩ ⟨0⟩).2 (by norm_num)⟩⟩

/-- C6: both copies of `_calculate_age_range` compute exactly the bucketed
bracket table the claim states (`specAgeBracket`), and in particular map
the estimates 10, 25, 40 and 70 to (7,13), (21,29), (35,45) and (62,78). -/
theorem calculate_age_range_follows_table :
    (∀ a : ℚ, DeepFaceAgeDetector._calculate_age_range a = specAgeBracket a ∧
       DeepFaceCombinedDetector._calculate_age_range a = specAgeBracket a) ∧
    DeepFaceAgeDetector._calculate_age_range 10 = (7, 13) ∧
    DeepFaceAgeDetector._calculate_age_range 25 = (21, 29) ∧
    DeepFaceAgeDetector._calculate_age_range 40 = (35, 45) ∧
    DeepFaceAgeDetector._calculate_age_range 70 = (62, 78) :=
  ⟨fun _ => ⟨rfl, rfl⟩,
   by norm_num [DeepFaceAgeDetector._calculate_age_range, pyInt],
   by norm_num [DeepFaceAgeDetector._calculate_age_range, pyInt],
   by norm_num [DeepFaceAgeDetector._calculate_age_range, pyInt],
   by norm_num [DeepFaceAgeDetector._calculate_age_range, pyInt]⟩

/-- C10: for every estimated age `a` with `0 ≤ a ≤ 120`, both copies of
`_calculate_age_range` return an integer pair `(min, max)` with
`0 ≤ min ≤ a ≤ max ≤ 120`. -/
theorem calculate_age_range_contains_estimate (a : ℚ) (h0 : 0 ≤ a) (h120 : a ≤ 120) :
    (0 ≤ (DeepFaceAgeDetector._calculate_age_range a).1 ∧
     ((DeepFaceAgeDetector._calculate_age_range a).1 : ℚ) ≤ a ∧
     a ≤ ((DeepFaceAgeDetector._calculate_age_range a).2 : ℚ) ∧
     (DeepFaceAgeDetector._calculate_age_range a).2 ≤ 120) ∧
    (0 ≤ (DeepFaceCombinedDetector._calculate_age_range a).1 ∧
     ((DeepFaceCombinedDetector._calculate_age_range a).1 : ℚ) ≤ a ∧
     a ≤ ((DeepFaceCombinedDetector._calculate_age_range a).2 : ℚ) ∧
     (DeepFaceCombinedDetector._calculate_age_range a).2 ≤ 120) :=
  ⟨calculate_age_range_bounds a h0 h120, calculate_age_range_bounds a h0 h120⟩

/-- Witness for C10 at the estimate 25. -/
theorem calculate_age_range_contains_estimate_witness :
    (0 ≤ (25 : ℚ) ∧ (25 : ℚ) ≤ 120) ∧
    ((0 ≤ (DeepFaceAgeDetector._calculate_age_range 25).1 ∧
      ((DeepFaceAgeDetector._calculate_age_range 25).1 : ℚ) ≤ 25 ∧
      (25 : ℚ) ≤ ((DeepFaceAgeDetector._calculate_age_range 25).2 : ℚ) ∧
      (DeepFaceAgeDetector._calculate_age_range 25).2 ≤ 120) ∧
     (0 ≤ (DeepFaceCombinedDetector._calculate_age_range 25).1 ∧
      ((DeepFaceCombinedDetector._calculate_age_range 25).1 : ℚ) ≤ 25 ∧
      (25 : ℚ) ≤ ((DeepFaceCombinedDetector._calculate_age_range 25).2 : ℚ) ∧
      (DeepFaceCombinedDetector._calculate_age_range 25).2 ≤ 120)) :=
  ⟨by norm_num, calculate_age_range_contains_estimate 25 (by norm_num) (by norm_num)⟩

/-- C2: when the path does not exist, `detect_faces_in_image` raises
`FileError("Image file not found: ...")` — the behaviour the spec calls the
`FileNotFound` error kind — immediately: no step is executed, in
particular the face detector is never invoked. -/
theorem detect_missing_path (C : Collaborators) (image_path : String)
    (ct : Option ℚ) (de da : Bool)
    (h : C.pathExists image_path = false) :
    FaceDetectionUseCase.detect_faces_in_image C image_path ct de da
      = (.error (.fileError ("Image file not found: " ++ image_path)), []) ∧
    FaceDetectionUseCase.Step.detectStep ∉
      (FaceDetectionUseCase.detect_faces_in_image C image_path ct de da).2 := by
  constructor
  · simp [FaceDetectionUseCase.detect_faces_in_image, h]
  · simp [FaceDetectionUseCase.detect_faces_in_image, h]

/-- Witness for C2: a filesystem with no files, a concrete path. -/
theorem detect_missing_path_witness :
    Cmiss.pathExists "missing.jpg" = false ∧
    (FaceDetectionUseCase.detect_faces_in_image Cmiss "missing.jpg" none false false
       = (.error (.fileError "Image file not found: missing.jpg"), []) ∧
     FaceDetectionUseCase.Step.detectStep ∉
       (FaceDetectionUseCase.detect_faces_in_image Cmiss "missing.jpg" none false false).2) :=
  ⟨rfl, detect_missing_path Cmiss "missing.jpg" none false false rfl⟩

theorem wrapTryError_error (x : Except PyErr DetectionResult) (e : PyErr)
    (h : FaceDetectionUseCase.wrapTryError x = .error e) :
    e.isInvalidImageOrFileError = true := by
  cases x with
  | ok r => simp [FaceDetectionUseCase.wrapTryError] at h
  | error e0 =>
    by_cases hf : e0.isInvalidImageOrFileError
    · simp [FaceDetectionUseCase.wrapTryError, hf] at h
      simpa [← h] using hf
    · simp [FaceDetectionUseCase.wrapTryError, hf] at h
      simp [← h, PyErr.isInvalidImageOrFileError]

theorem detect_eq_wrap (C : Collaborators) (image_path : String)
    (ct : Option ℚ) (de da : Bool)
    (hex : C.pathExists image_path = true)
    (hth : ∀ t, ct = some t → C.set_confidence_threshold t = .ok ()) :
    (FaceDetectionUseCase.detect_faces_in_image C image_path ct de da).1
      = FaceDetectionUseCase.wrapTryError
          (FaceDetectionUseCase.tryBody C image_path de da).1 := by
  unfold FaceDetectionUseCase.detect_faces_in_image
  rw [hex]
  cases ct with
  | none => simp
  | some t =>
    rw [if_neg (by simp : ¬(true = false))]
    dsimp only
    rw [hth t rfl]

/-- C9: on an existing path (with a threshold step that does not raise),
every failure surfacing from loading, detection or enrichment reaches the
caller as `InvalidImageError` or `FileError`; an exception of any other
kind raised by the loader or by the face detector is re-raised as
`InvalidImageError("Error processing image: " + str(e))` — so
`ProcessingError` and `ModelNotLoadedError` never reach the caller as
their own kind. -/
theorem detect_wraps_foreign_errors (C : Collaborators) (image_path : String)
    (ct : Option ℚ) (de da : Bool)
    (hex : C.pathExists image_path = true)
    (hth : ∀ t, ct = some t → C.set_confidence_threshold t = .ok ()) :
    (∀ e, (FaceDetectionUseCase.detect_faces_in_image C image_path ct de da).1 = .error e →
        e.isInvalidImageOrFileError = true) ∧
    (∀ e, C.load_image image_path = .error e → e.isInvalidImageOrFileError = false →
        (FaceDetectionUseCase.detect_faces_in_image C image_path ct de da).1
          = .error (.invalidImage ("Error processing image: " ++ e.message))) ∧
    (∀ img e, C.load_image image_path = .ok (some img) → img.size ≠ 0 →
        C.detect_faces img = .error e → e.isInvalidImageOrFileError = false →
        (FaceDetectionUseCase.detect_faces_in_image C image_path ct de da).1
          = .error (.invalidImage ("Error processing image: " ++ e.message))) := by
  refine ⟨?_, ?_, ?_⟩
  · intro e he
    rw [detect_eq_wrap C image_path ct de da hex hth] at he
    exact wrapTryError_error _ _ he
  · intro e hload hkind
    rw [detect_eq_wrap C image_path ct de da hex hth]
    simp [FaceDetectionUseCase.tryBody, hload, FaceDetectionUseCase.wrapTryError, hkind]
  · intro img e hload hsz hdet hkind
    rw [detect_eq_wrap C image_path ct de da hex hth]
    simp [FaceDetectionUseCase.tryBody, hload, hsz, hdet,
      FaceDetectionUseCase.wrapTryError, hkind]

/-- Witness for C9: a detector raising `ProcessingError("inference
failed")` surfaces as `InvalidImageError("Error processing image:
inference failed")`. -/
theorem detect_wraps_foreign_errors_witness :
    Cfail.pathExists "img.jpg" = true ∧
    Cfail.load_image "img.jpg" = .ok (some img100) ∧
    img100.size ≠ 0 ∧
    Cfail.detect_faces img100 = .error (.processing "inference failed") ∧
    (PyErr.processing "inference failed").isInvalidImageOrFileError = false ∧
    (FaceDetectionUseCase.detect_faces_in_image Cfail "img.jpg" none true true).1
      = .error (.invalidImage "Error processing image: inference failed") :=
  ⟨rfl, rfl, by norm_num [img100, Image.size], rfl, rfl,
   (detect_wraps_foreign_errors Cfail "img.jpg" none true true rfl
       (fun t h => Option.noConfusion h)).2.2 img100 (.processing "inference failed")
     rfl (by norm_num [img100, Image.size]) rfl rfl⟩

theorem combinedStage_calls (C : Collaborators) (de da : Bool) (im : Image) :
    ((FaceDetectionUseCase.combinedStage C de da im).2 = [Call.combinedCall] ∧
       (C.combined_detector ≠ none ∧ de = true ∧ da = true)) ∨
    ((FaceDetectionUseCase.combinedStage C de da im).2 = [] ∧
       ¬(C.combined_detector ≠ none ∧ de = true ∧ da = true)) := by
  unfold FaceDetectionUseCase.combinedStage
  rcases h : C.combined_detector with _ | comb <;> cases de <;> cases da <;> simp [h]
  rcases h2 : comb im with e | ⟨er, ar⟩ <;> simp [h2]

theorem emotionStage_calls (C : Collaborators) (de : Bool)
    (er0 : Option EmotionResult) (im : Image) :
    ((FaceDetectionUseCase.emotionStage C de er0 im).2 = [Call.emotionCall] ∧
       (de = true ∧ er0 = none ∧ C.emotion_detector ≠ none)) ∨
    ((FaceDetectionUseCase.emotionStage C de er0 im).2 = [] ∧
       (FaceDetectionUseCase.emotionStage C de er0 im).1 = er0 ∧
       ¬(de = true ∧ er0 = none ∧ C.emotion_detector ≠ none)) := by
  unfold FaceDetectionUseCase.emotionStage
  cases de <;> rcases er0 with _ | er <;>
    rcases h : C.emotion_detector with _ | det <;> simp [h]

theorem ageStage_calls (C : Collaborators) (da : Bool)
    (ar0 : Option AgeResult) (im : Image) :
    ((FaceDetectionUseCase.ageStage C da ar0 im).2 = [Call.ageCall] ∧
       (da = true ∧ ar0 = none ∧ C.age_detector ≠ none)) ∨
    ((FaceDetectionUseCase.ageStage C da ar0 im).2 = [] ∧
       (FaceDetectionUseCase.ageStage C da ar0 im).1 = ar0 ∧
       ¬(da = true ∧ ar0 = none ∧ C.age_detector ≠ none)) := by
  unfold FaceDetectionUseCase.ageStage
  cases da <;> rcases ar0 with _ | ar <;>
    rcases h : C.age_detector with _ | det <;> simp [h]

theorem emotionStage_value (C : Collaborators) (de : Bool)
    (er0 : Option EmotionResult) (im : Image) (er : EmotionResult)
    (h : (FaceDetectionUseCase.emotionStage C de er0 im).1 = some er) :
    er0 = some er ∨
    ∃ det, C.emotion_detector = some det ∧ det im = .ok er := by
  unfold FaceDetectionUseCase.emotionStage at h
  cases de <;> rcases er0 with _ | e0 <;>
    rcases hd : C.emotion_detector with _ | det <;> rw [hd] at h <;> dsimp only at h
  all_goals try exact Or.inl h
  rcases h2 : det im with e | r <;> rw [h2] at h <;> dsimp only at h
  · exact absurd h (by simp)
  · exact Or.inr ⟨det, rfl, by rw [h2, Option.some.inj h]⟩

theorem ageStage_value (C : Collaborators) (da : Bool)
    (ar0 : Option AgeResult) (im : Image) (ar : AgeResult)
    (h : (FaceDetectionUseCase.ageStage C da ar0 im).1 = some ar) :
    ar0 = some ar ∨
    ∃ det, C.age_detector = some det ∧ det im = .ok ar := by
  unfold FaceDetectionUseCase.ageStage at h
  cases da <;> rcases ar0 with _ | a0 <;>
    rcases hd : C.age_detector with _ | det <;> rw [hd] at h <;> dsimp only at h
  all_goals try exact Or.inl h
  rcases h2 : det im with e | r <;> rw [h2] at h <;> dsimp only at h
  · exact absurd h (by simp)
  · exact Or.inr ⟨det, rfl, by rw [h2, Option.some.inj h]⟩

theorem analyzeFace_eq (C : Collaborators) (img : Image) (de da : Bool)
    (face : FaceDetection)
    (hsz : ¬((faceCrop img face).height < 10 ∨ (faceCrop img face).width < 10)) :
    FaceDetectionUseCase.analyzeFace C img de da face =
      ({ bbox := face.bbox, confidence := face.confidence,
         landmarks := face.landmarks,
         emotion := (FaceDetectionUseCase.emotionStage C de
           (FaceDetectionUseCase.combinedStage C de da (faceCrop img face)).1.1
           (faceCrop img face)).1,
         age := (FaceDetectionUseCase.ageStage C da
           (FaceDetectionUseCase.combinedStage C de da (faceCrop img face)).1.2
           (faceCrop img face)).1 },
       (FaceDetectionUseCase.combinedStage C de da (faceCrop img face)).2 ++
       (FaceDetectionUseCase.emotionStage C de
         (FaceDetectionUseCase.combinedStage C de da (faceCrop img face)).1.1
         (faceCrop img face)).2 ++
       (FaceDetectionUseCase.ageStage C da
         (FaceDetectionUseCase.combinedStage C de da (faceCrop img face)).1.2
         (faceCrop img face)).2) := by
  unfold FaceDetectionUseCase.analyzeFace
  rw [if_neg hsz]

theorem analyzeFace_combined_mem (C : Collaborators) (img : Image) (de da : Bool)
    (face : FaceDetection)
    (hsz : ¬((faceCrop img face).height < 10 ∨ (faceCrop img face).width < 10)) :
    Call.combinedCall ∈ (FaceDetectionUseCase.analyzeFace C img de da face).2 ↔
      (C.combined_detector ≠ none ∧ de = true ∧ da = true) := by
  rw [analyzeFace_eq C img de da face hsz]
  constructor
  · intro h
    simp only [List.mem_append] at h
    rcases h with (h | h) | h
    · rcases combinedStage_calls C de da (faceCrop img face) with ⟨hc, hcond⟩ | ⟨hc, hcond⟩
      · exact hcond
      · rw [hc] at h; simp at h
    · rcases emotionStage_calls C de
          (FaceDetectionUseCase.combinedStage C de da (faceCrop img face)).1.1
          (faceCrop img face) with ⟨he, _⟩ | ⟨he, _, _⟩ <;> rw [he] at h <;> simp at h
    · rcases ageStage_calls C da
          (FaceDetectionUseCase.combinedStage C de da (faceCrop img face)).1.2
          (faceCrop img face) with ⟨ha, _⟩ | ⟨ha, _, _⟩ <;> rw [ha] at h <;> simp at h
  · intro hcond
    rcases combinedStage_calls C de da (faceCrop img face) with ⟨hc, _⟩ | ⟨hc, hn⟩
    · rw [hc]; simp
    · exact absurd hcond hn

theorem analyzeFace_combined_first (C : Collaborators) (img : Image) (de da : Bool)
    (face : FaceDetection)
    (hsz : ¬((faceCrop img face).height < 10 ∨ (faceCrop img face).width < 10)) :
    (FaceDetectionUseCase.analyzeFace C img de da face).2.head? = some Call.combinedCall ∨
    Call.combinedCall ∉ (FaceDetectionUseCase.analyzeFace C img de da face).2 := by
  rw [analyzeFace_eq C img de da face hsz]
  rcases combinedStage_calls C de da (faceCrop img face) with ⟨hc, _⟩ | ⟨hc, _⟩
  · left; rw [hc]; rfl
  · right
    rw [hc]
    simp only [List.nil_append, List.mem_append]
    rintro (h | h)
    · rcases emotionStage_calls C de
          (FaceDetectionUseCase.combinedStage C de da (faceCrop img face)).1.1
          (faceCrop img face) with ⟨he, _⟩ | ⟨he, _, _⟩ <;> rw [he] at h <;> simp at h
    · rcases ageStage_calls C da
          (FaceDetectionUseCase.combinedStage C de da (faceCrop img face)).1.2
          (faceCrop img face) with ⟨ha, _⟩ | ⟨ha, _, _⟩ <;> rw [ha] at h <;> simp at h

theorem analyzeFace_emotion_mem (C : Collaborators) (img : Image) (de da : Bool)
    (face : FaceDetection)
    (hsz : ¬((faceCrop img face).height < 10 ∨ (faceCrop img face).width < 10)) :
    Call.emotionCall ∈ (FaceDetectionUseCase.analyzeFace C img de da face).2 ↔
      (de = true ∧
       (FaceDetectionUseCase.combinedStage C de da (faceCrop img face)).1.1 = none ∧
       C.emotion_detector ≠ none) := by
  rw [analyzeFace_eq C img de da face hsz]
  constructor
  · intro h
    simp only [List.mem_append] at h
    rcases h with (h | h) | h
    · rcases combinedStage_calls C de da (faceCrop img face) with ⟨hc, _⟩ | ⟨hc, _⟩ <;>
        rw [hc] at h <;> simp at h
    · rcases emotionStage_calls C de
          (FaceDetectionUseCase.combinedStage C de da (faceCrop img face)).1.1
          (faceCrop img face) with ⟨he, hcond⟩ | ⟨he, _, _⟩
      · exact hcond
      · rw [he] at h; simp at h
    · rcases ageStage_calls C da
          (FaceDetectionUseCase.combinedStage C de da (faceCrop img face)).1.2
          (faceCrop img face) with ⟨ha, _⟩ | ⟨ha, _, _⟩ <;> rw [ha] at h <;> simp at h
  · intro hcond
    rcases emotionStage_calls C de
        (FaceDetectionUseCase.combinedStage C de da (faceCrop img face)).1.1
        (faceCrop img face) with ⟨he, _⟩ | ⟨he, _, hn⟩
    · rw [he]; simp
    · exact absurd hcond hn

theorem analyzeFace_age_mem (C : Collaborators) (img : Image) (de da : Bool)
    (face : FaceDetection)
    (hsz : ¬((faceCrop img face).height < 10 ∨ (faceCrop img face).width < 10)) :
    Call.ageCall ∈ (FaceDetectionUseCase.analyzeFace C img de da face).2 ↔
      (da = true ∧
       (FaceDetectionUseCase.combinedStage C de da (faceCrop img face)).1.2 = none ∧
       C.age_detector ≠ none) := by
  rw [analyzeFace_eq C img de da face hsz]
  constructor
  · intro h
    simp only [List.mem_append] at h
    rcases h with (h | h) | h
    · rcases combinedStage_calls C de da (faceCrop img face) with ⟨hc, _⟩ | ⟨hc, _⟩ <;>
        rw [hc] at h <;> simp at h
    · rcases emotionStage_calls C de
          (FaceDetectionUseCase.combinedStage C de da (faceCrop img face)).1.1
          (faceCrop img face) with ⟨he, _⟩ | ⟨he, _, _⟩ <;> rw [he] at h <;> simp at h
    · rcases ageStage_calls C da
          (FaceDetectionUseCase.combinedStage C de da (faceCrop img face)).1.2
          (faceCrop img face) with ⟨ha, hcond⟩ | ⟨ha, _, _⟩
      · exact hcond
      · rw [ha] at h; simp at h
  · intro hcond
    rcases ageStage_calls C da
        (FaceDetectionUseCase.combinedStage C de da (faceCrop img face)).1.2
        (faceCrop img face) with ⟨ha, _⟩ | ⟨ha, _, hn⟩
    · rw [ha]; simp
    · exact absurd hcond hn

/-- C7: for every face whose crop passes the size check, the combined
analyzer is attempted exactly when both analyses are requested and a
combined analyzer is configured, and it is attempted first; the individual
emotion analyzer is called exactly when emotions are requested, no emotion
result was obtained by the combined stage, and an emotion analyzer is
configured (symmetrically for age); no analyzer failure propagates — the
loop body always yields a face keeping the original bbox, confidence and
landmarks, whose attached emotion/age can only stem from a successful
analyzer call. -/
theorem analyzeFace_fallback_policy (C : Collaborators) (img : Image)
    (de da : Bool) (face : FaceDetection)
    (hsz : ¬((faceCrop img face).height < 10 ∨ (faceCrop img face).width < 10)) :
    (Call.combinedCall ∈ (FaceDetectionUseCase.analyzeFace C img de da face).2 ↔
       (C.combined_detector ≠ none ∧ de = true ∧ da = true)) ∧
    ((FaceDetectionUseCase.analyzeFace C img de da face).2.head? = some Call.combinedCall ∨
       Call.combinedCall ∉ (FaceDetectionUseCase.analyzeFace C img de da face).2) ∧
    (Call.emotionCall ∈ (FaceDetectionUseCase.analyzeFace C img de da face).2 ↔
       (de = true ∧
        (FaceDetectionUseCase.combinedStage C de da (faceCrop img face)).1.1 = none ∧
        C.emotion_detector ≠ none)) ∧
    (Call.ageCall ∈ (FaceDetectionUseCase.analyzeFace C img de da face).2 ↔
       (da = true ∧
        (FaceDetectionUseCase.combinedStage C de da (faceCrop img face)).1.2 = none ∧
        C.age_detector ≠ none)) ∧
    ((FaceDetectionUseCase.analyzeFace C img de da face).1.bbox = face.bbox ∧
     (FaceDetectionUseCase.analyzeFace C img de da face).1.confidence = face.confidence ∧
     (FaceDetectionUseCase.analyzeFace C img de da face).1.landmarks = face.landmarks) ∧
    (∀ er, (FaceDetectionUseCase.analyzeFace C img de da face).1.emotion = some er →
       (FaceDetectionUseCase.combinedStage C de da (faceCrop img face)).1.1 = some er ∨
       ∃ det, C.emotion_detector = some det ∧ det (faceCrop img face) = .ok er) ∧
    (∀ ar, (FaceDetectionUseCase.analyzeFace C img de da face).1.age = some ar →
       (FaceDetectionUseCase.combinedStage C de da (faceCrop img face)).1.2 = some ar ∨
       ∃ det, C.age_detector = some det ∧ det (faceCrop img face) = .ok ar) := by
  refine ⟨analyzeFace_combined_mem C img de da face hsz,
          analyzeFace_combined_first C img de da face hsz,
          analyzeFace_emotion_mem C img de da face hsz,
          analyzeFace_age_mem C img de da face hsz,
          ?_, ?_, ?_⟩
  · rw [analyzeFace_eq C img de da face hsz]
    exact ⟨rfl, rfl, rfl⟩
  · intro er h
    rw [analyzeFace_eq C img de da face hsz] at h
    exact emotionStage_value C de _ (faceCrop img face) er h
  · intro ar h
    rw [analyzeFace_eq C img de da face hsz] at h
    exact ageStage_value C da _ (faceCrop img face) ar h

/-- Witness for C7: both analyses requested on `f1w` (60×50 crop) with a
combined detector and both individual analyzers configured. -/
theorem analyzeFace_fallback_policy_witness :
    ¬((faceCrop img100 f1w).height < 10 ∨ (faceCrop img100 f1w).width < 10) ∧
    ((Call.combinedCall ∈ (FaceDetectionUseCase.analyzeFace Cw7 img100 true true f1w).2 ↔
       (Cw7.combined_detector ≠ none ∧ true = true ∧ true = true)) ∧
     ((FaceDetectionUseCase.analyzeFace Cw7 img100 true true f1w).2.head?
         = some Call.combinedCall ∨
       Call.combinedCall ∉ (FaceDetectionUseCase.analyzeFace Cw7 img100 true true f1w).2) ∧
     (Call.emotionCall ∈ (FaceDetectionUseCase.analyzeFace Cw7 img100 true true f1w).2 ↔
       (true = true ∧
        (FaceDetectionUseCase.combinedStage Cw7 true true (faceCrop img100 f1w)).1.1 = none ∧
        Cw7.emotion_detector ≠ none)) ∧
     (Call.ageCall ∈ (FaceDetectionUseCase.analyzeFace Cw7 img100 true true f1w).2 ↔
       (true = true ∧
        (FaceDetectionUseCase.combinedStage Cw7 true true (faceCrop img100 f1w)).1.2 = none ∧
        Cw7.age_detector ≠ none)) ∧
     ((FaceDetectionUseCase.analyzeFace Cw7 img100 true true f1w).1.bbox = f1w.bbox ∧
      (FaceDetectionUseCase.analyzeFace Cw7 img100 true true f1w).1.confidence
          = f1w.confidence ∧
      (FaceDetectionUseCase.analyzeFace Cw7 img100 true true f1w).1.landmarks
          = f1w.landmarks) ∧
     (∀ er, (FaceDetectionUseCase.analyzeFace Cw7 img100 true true f1w).1.emotion = some er →
        (FaceDetectionUseCase.combinedStage Cw7 true true (faceCrop img100 f1w)).1.1
            = some er ∨
        ∃ det, Cw7.emotion_detector = some det ∧ det (faceCrop img100 f1w) = .ok er) ∧
     (∀ ar, (FaceDetectionUseCase.analyzeFace Cw7 img100 true true f1w).1.age = some ar →
        (FaceDetectionUseCase.combinedStage Cw7 true true (faceCrop img100 f1w)).1.2
            = some ar ∨
        ∃ det, Cw7.age_detector = some det ∧ det (faceCrop img100 f1w) = .ok ar)) :=
  ⟨by norm_num [faceCrop, f1w, img100, Image.sliceCrop, normIdx, pyInt],
   analyzeFace_fallback_policy Cw7 img100 true true f1w
     (by norm_num [faceCrop, f1w, img100, Image.sliceCrop, normIdx, pyInt])⟩

theorem analyzeFace_enriched (C : Collaborators) (img : Image) (f : FaceDetection)
    (E : Image → Except PyErr EmotionResult) (A : Image → Except PyErr AgeResult)
    (er : EmotionResult) (ar : AgeResult)
    (hC : C.combined_detector = none) (hE : C.emotion_detector = some E)
    (hA : C.age_detector = some A)
    (hsz : ¬((faceCrop img f).height < 10 ∨ (faceCrop img f).width < 10))
    (hEok : E (faceCrop img f) = .ok er) (hAok : A (faceCrop img f) = .ok ar) :
    (FaceDetectionUseCase.analyzeFace C img true true f).1
      = { f with emotion := some er, age := some ar } := by
  rw [analyzeFace_eq C img true true f hsz]
  have hcomb : FaceDetectionUseCase.combinedStage C true true (faceCrop img f)
      = ((none, none), []) := by
    unfold FaceDetectionUseCase.combinedStage
    rw [hC]
  simp [hcomb, FaceDetectionUseCase.emotionStage, FaceDetectionUseCase.ageStage,
    hE, hA, hEok, hAok]

theorem analyzeFace_unchanged (C : Collaborators) (img : Image) (f : FaceDetection)
    (E : Image → Except PyErr EmotionResult) (A : Image → Except PyErr AgeResult)
    (eE eA : PyErr)
    (hC : C.combined_detector = none) (hE : C.emotion_detector = some E)
    (hA : C.age_detector = some A)
    (hsz : ¬((faceCrop img f).height < 10 ∨ (faceCrop img f).width < 10))
    (hEerr : E (faceCrop img f) = .error eE) (hAerr : A (faceCrop img f) = .error eA)
    (hfe : f.emotion = none) (hfa : f.age = none) :
    (FaceDetectionUseCase.analyzeFace C img true true f).1 = f := by
  rw [analyzeFace_eq C img true true f hsz]
  have hcomb : FaceDetectionUseCase.combinedStage C true true (faceCrop img f)
      = ((none, none), []) := by
    unfold FaceDetectionUseCase.combinedStage
    rw [hC]
  simp only [hcomb]
  obtain ⟨b, c, l, e, a⟩ := f
  simp only at hfe hfa
  subst hfe
  subst hfa
  simp [FaceDetectionUseCase.emotionStage, FaceDetectionUseCase.ageStage,
    hE, hA, hEerr, hAerr]

/-- C4: with no combined detector and both individual analyzers configured,
if analysis fails exactly for the face `fk` at position `pre.length` (both
its analyzer calls raise) and succeeds for every other face, the enriched
result keeps all faces in the original order: every face other than `fk`
carries its enrichment, and `fk` is kept as the original, unenriched entry. -/
theorem add_facial_analysis_fault_isolation (p : String) (t : ℚ) (sz : ℕ × ℕ)
    (C : Collaborators) (img : Image)
    (pre post : List FaceDetection) (fk : FaceDetection)
    (E : Image → Except PyErr EmotionResult) (A : Image → Except PyErr AgeResult)
    (e : FaceDetection → EmotionResult) (a : FaceDetection → AgeResult)
    (eE eA : PyErr)
    (hC : C.combined_detector = none) (hE : C.emotion_detector = some E)
    (hA : C.age_detector = some A)
    (hsz : ∀ f ∈ pre ++ fk :: post,
       ¬((faceCrop img f).height < 10 ∨ (faceCrop img f).width < 10))
    (hok : ∀ f ∈ pre ++ post,
       E (faceCrop img f) = .ok (e f) ∧ A (faceCrop img f) = .ok (a f))
    (hkE : E (faceCrop img fk) = .error eE) (hkA : A (faceCrop img fk) = .error eA)
    (hfe : fk.emotion = none) (hfa : fk.age = none) :
    (FaceDetectionUseCase._add_facial_analysis C ⟨p, pre ++ fk :: post, t, sz⟩
        img true true).faces
      = pre.map (fun f => { f with emotion := some (e f), age := some (a f) })
        ++ fk :: post.map (fun f => { f with emotion := some (e f), age := some (a f) }) ∧
    (FaceDetectionUseCase._add_facial_analysis C ⟨p, pre ++ fk :: post, t, sz⟩
        img true true).faces.length
      = (pre ++ fk :: post).length := by
  have hmain :
      (FaceDetectionUseCase._add_facial_analysis C ⟨p, pre ++ fk :: post, t, sz⟩
          img true true).faces
        = pre.map (fun f => { f with emotion := some (e f), age := some (a f) })
          ++ fk :: post.map (fun f => { f with emotion := some (e f), age := some (a f) }) := by
    show (pre ++ fk :: post).map
        (fun f => (FaceDetectionUseCase.analyzeFace C img true true f).1) = _
    rw [List.map_append, List.map_cons]
    congr 1
    · exact List.map_congr_left (fun f hf =>
        analyzeFace_enriched C img f E A (e f) (a f) hC hE hA
          (hsz f (List.mem_append_left _ hf))
          (hok f (List.mem_append_left _ hf)).1
          (hok f (List.mem_append_left _ hf)).2)
    · congr 1
      · exact analyzeFace_unchanged C img fk E A eE eA hC hE hA
          (hsz fk (List.mem_append_right _ (List.mem_cons_self _ _)))
          hkE hkA hfe hfa
      · exact List.map_congr_left (fun f hf =>
          analyzeFace_enriched C img f E A (e f) (a f) hC hE hA
            (hsz f (List.mem_append_right _ (List.mem_cons_of_mem _ hf)))
            (hok f (List.mem_append_right _ hf)).1
            (hok f (List.mem_append_right _ hf)).2)
  refine ⟨hmain, ?_⟩
  rw [hmain]
  simp

/-- Witness for C4: two faces, analysis failing exactly for the first. -/
theorem add_facial_analysis_fault_isolation_witness :
    Ew (faceCrop img100 f0w) = .error (.processing "emotion backend failed") ∧
    Aw (faceCrop img100 f0w) = .error (.processing "age backend failed") ∧
    Ew (faceCrop img100 f1w) = .ok erw ∧
    Aw (faceCrop img100 f1w) = .ok arw ∧
    (FaceDetectionUseCase._add_facial_analysis Cw4 ⟨"group.jpg", [f0w, f1w], 1, (100, 100)⟩
        img100 true true).faces
      = [f0w, { f1w with emotion := some erw, age := some arw }] ∧
    (FaceDetectionUseCase._add_facial_analysis Cw4 ⟨"group.jpg", [f0w, f1w], 1, (100, 100)⟩
        img100 true true).faces.length = 2 := by
  have h := add_facial_analysis_fault_isolation "group.jpg" 1 (100, 100) Cw4 img100
    [] [f1w] f0w Ew Aw (fun _ => erw) (fun _ => arw)
    (.processing "emotion backend failed") (.processing "age backend failed")
    rfl rfl rfl
    (by
      intro f hf
      simp only [List.nil_append, List.mem_cons, List.mem_singleton] at hf
      rcases hf with rfl | rfl | hf
      · norm_num [faceCrop, f0w, img100, Image.sliceCrop, normIdx, pyInt]
      · norm_num [faceCrop, f1w, img100, Image.sliceCrop, normIdx, pyInt]
      · simp at hf)
    (by
      intro f hf
      simp only [List.nil_append, List.mem_singleton] at hf
      subst hf
      constructor <;>
        norm_num [Ew, Aw, faceCrop, f1w, img100, Image.sliceCrop, normIdx, pyInt] <;>
        (intro h; exact absurd h (by decide)))
    (by norm_num [Ew, faceCrop, f0w, img100, Image.sliceCrop, normIdx, pyInt] <;>
            (intro h; first
              | exact absurd h (by decide)
              | exact absurd (by decide) h))
    (by norm_num [Aw, faceCrop, f0w, img100, Image.sliceCrop, normIdx, pyInt] <;>
            (intro h; first
              | exact absurd h (by decide)
              | exact absurd (by decide) h))
    rfl rfl
  refine ⟨by norm_num [Ew, faceCrop, f0w, img100, Image.sliceCrop, normIdx, pyInt] <;>
            (intro h; first
              | exact absurd h (by decide)
              | exact absurd (by decide) h),
          by norm_num [Aw, faceCrop, f0w, img100, Image.sliceCrop, normIdx, pyInt] <;>
            (intro h; first
              | exact absurd h (by decide)
              | exact absurd (by decide) h),
          by norm_num [Ew, faceCrop, f1w, img100, Image.sliceCrop, normIdx, pyInt] <;>
            (intro h; first
              | exact absurd h (by decide)
              | exact absurd (by decide) h),
          by norm_num [Aw, faceCrop, f1w, img100, Image.sliceCrop, normIdx, pyInt] <;>
            (intro h; first
              | exact absurd h (by decide)
              | exact absurd (by decide) h),
          ?_, ?_⟩
  · simpa using h.1
  · simpa using h.2

theorem analyzeFace_skip (C : Collaborators) (img : Image) (de da : Bool)
    (face : FaceDetection)
    (h : (faceCrop img face).height < 10 ∨ (faceCrop img face).width < 10) :
    FaceDetectionUseCase.analyzeFace C img de da face = (face, []) := by
  unfold FaceDetectionUseCase.analyzeFace
  rw [if_pos h]

/-- C8 counterexample: the crop is NOT the bounding box clipped to the
image bounds.  For the bbox `(-5, 0, 20, 50)` in a 100×100 image, Python
slice semantics interpret `x1 = -5` relative to the image end
(`image[0:50, -5:20]`, i.e. columns 95..20, empty), so the code's crop is
50×0 and analysis is skipped, while the clipped bbox is 50×20 —
large enough that the claimed semantics would analyse the face. -/
theorem crop_not_clipped_counterexample :
    ((faceCrop img100 fneg).height, (faceCrop img100 fneg).width) = (50, 0) ∧
    clippedCropShape img100 (pyInt fneg.bbox.2.1) (pyInt fneg.bbox.2.2.2)
        (pyInt fneg.bbox.1) (pyInt fneg.bbox.2.2.1) = (50, 20) ∧
    ((faceCrop img100 fneg).height, (faceCrop img100 fneg).width) ≠
      clippedCropShape img100 (pyInt fneg.bbox.2.1) (pyInt fneg.bbox.2.2.2)
        (pyInt fneg.bbox.1) (pyInt fneg.bbox.2.2.1) ∧
    FaceDetectionUseCase.analyzeFace Cw4 img100 true true fneg = (fneg, []) := by
  have hp5 : pyInt (-5 : ℚ) = -5 := by
    unfold pyInt
    rw [if_neg (by norm_num)]
    norm_cast
  have hp0 : pyInt (0 : ℚ) = 0 := by norm_num [pyInt]
  have hp20 : pyInt (20 : ℚ) = 20 := by norm_num [pyInt]
  have hp50 : pyInt (50 : ℚ) = 50 := by norm_num [pyInt]
  have h1 : ((faceCrop img100 fneg).height, (faceCrop img100 fneg).width) = (50, 0) := by
    norm_num [faceCrop, fneg, img100, Image.sliceCrop, normIdx, hp5, hp0, hp20, hp50] <;> omega
  have h2 : clippedCropShape img100 (pyInt fneg.bbox.2.1) (pyInt fneg.bbox.2.2.2)
      (pyInt fneg.bbox.1) (pyInt fneg.bbox.2.2.1) = (50, 20) := by
    norm_num [clippedCropShape, fneg, img100, hp5, hp0, hp20, hp50] <;> omega
  refine ⟨h1, h2, by rw [h1, h2]; simp, ?_⟩
  exact analyzeFace_skip Cw4 img100 true true fneg
    (Or.inr (by rw [(Prod.mk.injEq _ _ _ _).mp h1 |>.2]; norm_num))

/-- C8 (amended): the crop follows Python slice semantics — for bounding
boxes whose integer coordinates are all nonnegative this is exactly the
bbox clipped to the image bounds, while negative coordinates are
interpreted relative to the image end; and every face whose resulting crop
has height or width below 10 is skipped by the analysis loop: its original
entry is kept unmodified (no emotion or age attached) and it still appears
in the enriched face list. -/
theorem crop_clip_amended :
    (∀ (img : Image) (y1 y2 x1 x2 : ℤ), 0 ≤ y1 → 0 ≤ y2 → 0 ≤ x1 → 0 ≤ x2 →
       ((img.sliceCrop y1 y2 x1 x2).height, (img.sliceCrop y1 y2 x1 x2).width)
         = clippedCropShape img y1 y2 x1 x2) ∧
    (∀ (C : Collaborators) (img : Image) (de da : Bool) (face : FaceDetection),
       ((faceCrop img face).height < 10 ∨ (faceCrop img face).width < 10) →
       FaceDetectionUseCase.analyzeFace C img de da face = (face, []) ∧
       ∀ (result : DetectionResult), face ∈ result.faces →
         face ∈ (FaceDetectionUseCase._add_facial_analysis C result img de da).faces) := by
  constructor
  · intro img y1 y2 x1 x2 h1 h2 h3 h4
    simp only [Image.sliceCrop, clippedCropShape, normIdx,
      if_neg (not_lt.mpr h1), if_neg (not_lt.mpr h2),
      if_neg (not_lt.mpr h3), if_neg (not_lt.mpr h4), Prod.mk.injEq]
    constructor <;> omega
  · intro C img de da face h
    refine ⟨analyzeFace_skip C img de da face h, ?_⟩
    intro result hmem
    exact List.mem_map.mpr ⟨face, hmem,
      by rw [analyzeFace_skip C img de da face h]⟩

/-- Witness for C8 (amended): clipping agreement at nonnegative bounds
`[0:50, 0:20]` in `img100`, and the 5×5-crop face `fsmall` being skipped. -/
theorem crop_clip_amended_witness :
    ((0 : ℤ) ≤ 0 ∧ (0 : ℤ) ≤ 50 ∧ (0 : ℤ) ≤ 20 ∧
      ((img100.sliceCrop 0 50 0 20).height, (img100.sliceCrop 0 50 0 20).width)
        = clippedCropShape img100 0 50 0 20) ∧
    (((faceCrop img100 fsmall).height < 10 ∨ (faceCrop img100 fsmall).width < 10) ∧
      FaceDetectionUseCase.analyzeFace Cw4 img100 true true fsmall = (fsmall, [])) :=
  ⟨⟨by decide, by decide, by decide,
    crop_clip_amended.1 img100 0 50 0 20 (by decide) (by decide) (by decide) (by decide)⟩,
   ⟨by norm_num [faceCrop, fsmall, img100, Image.sliceCrop, normIdx, pyInt] <;> omega,
    (crop_clip_amended.2 Cw4 img100 true true fsmall
      (by norm_num [faceCrop, fsmall, img100, Image.sliceCrop, normIdx, pyInt] <;> omega)).1⟩⟩

/-- C1: the serialized face form contains `bbox{x1,y1,x2,y2}`, `confidence`,
`width`, `height`, `area` (plus `landmarks` when present), but `_face_to_dict`
never emits an `emotion` or `age` sub-object — not even for a face carrying
both enrichments, contrary to the claim; evaluation at `faceEnriched`
exhibits the omission. -/
theorem face_to_dict_drops_enrichment :
    (∀ face : FaceDetection,
      List.lookup "emotion" (DetectionResultSerializer.face_to_dict face) = none ∧
      List.lookup "age" (DetectionResultSerializer.face_to_dict face) = none) ∧
    faceEnriched.emotion = some erw ∧
    faceEnriched.age = some arw ∧
    (DetectionResultSerializer.face_to_dict faceEnriched).map Prod.fst
      = ["bbox", "confidence", "width", "height", "area"] ∧
    List.lookup "emotion" (DetectionResultSerializer.face_to_dict faceEnriched) = none ∧
    List.lookup "age" (DetectionResultSerializer.face_to_dict faceEnriched) = none := by
  refine ⟨?_, rfl, rfl, rfl, rfl, rfl⟩
  intro face
  unfold DetectionResultSerializer.face_to_dict
  constructor <;> split <;> rfl

end FaceDet
